import Mathlib

/-!
# Verification of the Azimuth dashboard rendering logic

Shallow embedding of `src/webapp/src/pages/Dashboard.tsx`: the conditional
rendering and data-availability decision logic of the dashboard page of the
Azimuth error-analysis tool, together with theorems settling the testable
properties of its specification.

The component consumes two fetched snapshots (job configuration and dataset
info), a selection state (optional pipeline, opaque search string) and a job
identifier, and produces a render decision: a loading indicator, an
error/empty placeholder, or a page of preview sections.

Helper definitions that live in repository modules outside the provided
slice (`utils/const`, `utils/helpers`, `components/WithDatasetSplitNameState`)
are modelled from the specification; each such definition says so in its doc
comment.
-/

namespace Azimuth

/-- The fixed enumeration of dataset split names.
Modelled from the spec: `DATASET_SPLIT_NAMES` lives in `utils/const`,
not in the provided slice; the spec gives the enumeration {train, eval}. -/
inductive DatasetSplitName where
  | train
  | eval
deriving DecidableEq, Repr

/-- The path segment for a dataset split, as it appears in generated links
(`train` and `eval` are the enumeration member names). -/
def DatasetSplitName.path : DatasetSplitName → String
  | .train => "train"
  | .eval => "eval"

/-- Modelled from the spec: the fixed priority ordering of the split-name
enumeration, from `utils/const` (not in the provided slice). -/
def DATASET_SPLIT_NAMES : List DatasetSplitName :=
  [DatasetSplitName.train, DatasetSplitName.eval]

/-- Modelled from the spec: the fixed fallback error string, from
`utils/const` (not in the provided slice). -/
def UNKNOWN_ERROR : String := "unknown error"

/-- The `availableDatasetSplits` mapping, from split name to boolean
presence. -/
structure AvailableDatasetSplits where
  train : Bool
  eval : Bool
deriving DecidableEq, Repr

/-- Generic lookup of the mapping at a split name. -/
def AvailableDatasetSplits.at (s : AvailableDatasetSplits) :
    DatasetSplitName → Bool
  | .train => s.train
  | .eval => s.eval

/-- The `DatasetInfo` record as consumed by the dashboard: split availability, the two
feature-availability booleans, and the per-pipeline-index editability
mapping (an optional array indexed by pipeline index, as in
`datasetInfo.postprocessingEditable?.[pipeline.pipelineIndex]`). -/
structure DatasetInfo where
  availableDatasetSplits : AvailableDatasetSplits
  similarityAvailable : Bool
  perturbationTestingAvailable : Bool
  postprocessingEditable : Option (List Bool)
deriving DecidableEq, Repr

/-- A selected pipeline reference: an index into the job's pipeline list. -/
structure Pipeline where
  pipelineIndex : Nat
deriving DecidableEq, Repr

/-- A pipeline descriptor of the job configuration (contents opaque to the
dashboard, which only counts them). -/
structure PipelineDefinition where
  name : String
deriving DecidableEq, Repr

/-- Job configuration: `pipelines` is an optional ordered sequence of
pipeline descriptors. -/
structure AzimuthConfig where
  pipelines : Option (List PipelineDefinition)
deriving DecidableEq, Repr

/-- A fetch error as delivered by a query endpoint; its `message` field is
optional (`SerializedError.message?: string`). -/
structure FetchError where
  message : Option String
deriving DecidableEq, Repr

/-- The observable state of the dataset-info query:
`{ data, error, isFetching }` as destructured in the component. -/
structure QueryResult (α : Type) where
  data : Option α
  error : Option FetchError
  isFetching : Bool

/-- Modelled from the spec: `isPipelineSelected` lives in `utils/helpers`
(not in the provided slice); a pipeline-dependent section is eligible only
when a pipeline is actually selected (non-absent). -/
def isPipelineSelected (pipeline : Option Pipeline) : Bool :=
  pipeline.isSome

/-- JavaScript `x || y` on an optional string `x`: the fallback is used when
`x` is absent or falsy (the empty string is falsy). -/
def jsStringOr (x : Option String) (fallback : String) : String :=
  match x with
  | none => fallback
  | some m => if m = "" then fallback else m

/-- The text of the error placeholder: `error?.message || UNKNOWN_ERROR`. -/
def placeholderMessage (error : Option FetchError) : String :=
  jsStringOr (error.bind FetchError.message) UNKNOWN_ERROR

/-- The `firstAvailableDatasetSplit` computation: the first split name, in the fixed
priority ordering, whose `availableDatasetSplits` value is true
(Dashboard.tsx lines 50-52).  The source asserts non-nullity with `!`; the
behaviour when no split is available is undefined there, so the `getD`
default is never relevant under the page precondition. -/
def firstAvailableDatasetSplit (s : AvailableDatasetSplits) : DatasetSplitName :=
  (DATASET_SPLIT_NAMES.find? fun datasetSplitName => s.at datasetSplitName).getD
    DatasetSplitName.train

/-- A rendered preview card: its title, its navigation target, and the
optional extra link-button label (`linkButtonText`). -/
structure SectionCard where
  title : String
  «to» : String
  linkButtonText : Option String
deriving DecidableEq, Repr

/-- Modelled from the spec: `WithDatasetSplitNameState` (not in the provided
slice) holds an independently-initialized per-section "current split" state
defaulted to `defaultDatasetSplitName`, mutable within the section; the
section body is rendered at the current split. -/
structure SplitStateSection where
  defaultDatasetSplitName : DatasetSplitName
  render : DatasetSplitName → SectionCard

/-- The section-rendering state of the page: the always-rendered header
call-to-action link and Dataset Warnings card, and the five conditional
sections (absent = not rendered). -/
structure Page where
  explorationLink : String
  datasetWarnings : SectionCard
  classOverlap : Option SectionCard
  pipelineMetrics : Option SplitStateSection
  smartTags : Option SplitStateSection
  behavioralTesting : Option SectionCard
  postprocessing : Option SectionCard

/-- The render decision of the dashboard component. -/
inductive RenderOutput where
  | loading
  | placeholder (message : String)
  | page (page : Page)

/-- The "Compare pipelines" link label:
`config?.pipelines && config.pipelines.length > 1 ? "Compare pipelines" : undefined`
(Dashboard.tsx lines 121-125). -/
def comparePipelinesLabel (config : Option AzimuthConfig) : Option String :=
  match config with
  | none => none
  | some c =>
    match c.pipelines with
    | none => none
    | some pipelines =>
      if pipelines.length > 1 then some "Compare pipelines" else none

/-- The truthiness of `datasetInfo.postprocessingEditable?.[i]`: false when
the mapping is absent, when the index is out of range, or when the entry is
false. -/
def postprocessingEditableAt (pe : Option (List Bool)) (i : Nat) : Bool :=
  match pe with
  | none => false
  | some l => l.getD i false

/-- The section-rendering state (Dashboard.tsx lines 54-194): the JSX tree
returned after the loading and error branches, with each `cond && <Card/>`
conjunction embedded as an `Option SectionCard`. -/
def renderPage (jobId : String) (pipeline : Option Pipeline)
    (searchString : String) (config : Option AzimuthConfig)
    (datasetInfo : DatasetInfo) : Page :=
  let firstSplit := firstAvailableDatasetSplit datasetInfo.availableDatasetSplits
  { explorationLink :=
      "/" ++ jobId ++ "/dataset_splits/" ++ firstSplit.path ++
        "/prediction_overview" ++ searchString
    datasetWarnings :=
      { title := "Dataset Warnings"
        «to» := "/" ++ jobId ++ "/dataset_warnings" ++ searchString
        linkButtonText := none }
    classOverlap :=
      if datasetInfo.availableDatasetSplits.train &&
          datasetInfo.similarityAvailable then
        some
          { title := "Class Overlap"
            «to» := "/" ++ jobId ++ "/dataset_splits/train/class_overlap" ++
              searchString
            linkButtonText := none }
      else none
    pipelineMetrics :=
      if isPipelineSelected pipeline then
        some
          { defaultDatasetSplitName := firstSplit
            render := fun datasetSplitName =>
              { title := "Pipeline Metrics by Data Subpopulation"
                «to» := "/" ++ jobId ++ "/dataset_splits/" ++
                  datasetSplitName.path ++ "/pipeline_metrics" ++ searchString
                linkButtonText := comparePipelinesLabel config } }
      else none
    smartTags :=
      if isPipelineSelected pipeline then
        some
          { defaultDatasetSplitName := firstSplit
            render := fun datasetSplitName =>
              { title := "Smart Tag Analysis"
                «to» := "/" ++ jobId ++ "/dataset_splits/" ++
                  datasetSplitName.path ++ "/smart_tags" ++ searchString
                linkButtonText := none } }
      else none
    behavioralTesting :=
      if isPipelineSelected pipeline &&
          datasetInfo.perturbationTestingAvailable then
        some
          { title := "Behavioral Testing"
            «to» := "/" ++ jobId ++ "/behavioral_testing_summary" ++ searchString
            linkButtonText := none }
      else none
    postprocessing :=
      match pipeline with
      | none => none
      | some p =>
        if isPipelineSelected (some p) &&
            datasetInfo.availableDatasetSplits.eval &&
            postprocessingEditableAt datasetInfo.postprocessingEditable
              p.pipelineIndex then
          some
            { title := "Post-processing Analysis"
              «to» := "/" ++ jobId ++ "/thresholds" ++ searchString
              linkButtonText := none }
        else none }

/-- The inputs of one evaluation of the component: route parameter, query
state, and the two fetched snapshots.  Only the `data` field of the config
query is read by the component, so the config is carried as its optional
data. -/
structure DashboardInput where
  jobId : String
  pipeline : Option Pipeline
  searchString : String
  config : Option AzimuthConfig
  datasetInfoQuery : QueryResult DatasetInfo

/-- The dashboard render function (Dashboard.tsx lines 39-195):
loading while the dataset-info fetch is in flight; the placeholder when the
fetch errored or returned no data; the section page otherwise. -/
def dashboard (input : DashboardInput) : RenderOutput :=
  if input.datasetInfoQuery.isFetching then
    RenderOutput.loading
  else
    match input.datasetInfoQuery.error, input.datasetInfoQuery.data with
    | some e, _ =>
      RenderOutput.placeholder (placeholderMessage (some e))
    | none, none =>
      RenderOutput.placeholder (placeholderMessage none)
    | none, some datasetInfo =>
      RenderOutput.page
        (renderPage input.jobId input.pipeline input.searchString input.config
          datasetInfo)

/-- Section path segments (leading slash included) of links that carry no
dataset-split segment. -/
def plainSectionPaths : List String :=
  ["/dataset_warnings", "/behavioral_testing_summary", "/thresholds"]

/-- Section path segments (leading slash included) of links that sit under a
`dataset_splits/{split}` prefix. -/
def splitSectionPaths : List String :=
  ["/prediction_overview", "/class_overlap", "/pipeline_metrics", "/smart_tags"]

/-- The link-shape invariant: a generated link is either
`/{jobId}{sectionPath}{searchString}` or
`/{jobId}/dataset_splits/{split}{sectionPath}{searchString}`, with the
section path drawn from the fixed segment lists (each carrying its leading
slash) and the split drawn from the split-name enumeration. -/
def hasLinkShape (jobId searchString link : String) : Prop :=
  (∃ sectionPath ∈ plainSectionPaths,
    link = "/" ++ jobId ++ sectionPath ++ searchString) ∨
  (∃ sectionPath ∈ splitSectionPaths, ∃ split ∈ DATASET_SPLIT_NAMES,
    link = "/" ++ jobId ++ "/dataset_splits/" ++ split.path ++ sectionPath ++
      searchString)

/-- Split availability with only the eval split available, used to
instantiate theorems at a concrete input. -/
def evalOnlySplits : AvailableDatasetSplits := { train := false, eval := true }

/-- A dataset-info snapshot with every split and feature available and one
editable pipeline, used to instantiate theorems at a concrete input. -/
def exampleDatasetInfo : DatasetInfo :=
  { availableDatasetSplits := { train := true, eval := true }
    similarityAvailable := true
    perturbationTestingAvailable := true
    postprocessingEditable := some [true] }

/-- A dashboard input whose dataset-info fetch is still in flight. -/
def exampleLoadingInput : DashboardInput :=
  { jobId := "job"
    pipeline := none
    searchString := ""
    config := none
    datasetInfoQuery := { data := none, error := none, isFetching := true } }

/-- A dashboard input whose dataset-info fetch failed with the non-empty
message "boom". -/
def exampleFailedInput : DashboardInput :=
  { jobId := "job"
    pipeline := none
    searchString := ""
    config := none
    datasetInfoQuery :=
      { data := none
        error := some { message := some "boom" }
        isFetching := false } }

/-- A dashboard input whose dataset-info fetch failed with the non-empty
message "oops". -/
def exampleOtherFailedInput : DashboardInput :=
  { jobId := "job"
    pipeline := none
    searchString := ""
    config := none
    datasetInfoQuery :=
      { data := none
        error := some { message := some "oops" }
        isFetching := false } }

/-- A dashboard input whose dataset-info fetch failed without any message. -/
def exampleFailedNoMessageInput : DashboardInput :=
  { jobId := "job"
    pipeline := none
    searchString := ""
    config := none
    datasetInfoQuery :=
      { data := none, error := some { message := none }, isFetching := false } }

/-- A dashboard input whose dataset-info fetch failed with a message that is
present but empty. -/
def exampleEmptyMessageInput : DashboardInput :=
  { jobId := "job"
    pipeline := none
    searchString := ""
    config := none
    datasetInfoQuery :=
      { data := none, error := some { message := some "" }, isFetching := false } }

/-- A dashboard input whose dataset-info fetch succeeded, with a pipeline
selected and a two-pipeline configuration. -/
def exampleSuccessInput : DashboardInput :=
  { jobId := "job"
    pipeline := some { pipelineIndex := 0 }
    searchString := "?q"
    config := some { pipelines := some [{ name := "p0" }, { name := "p1" }] }
    datasetInfoQuery :=
      { data := some exampleDatasetInfo, error := none, isFetching := false } }

/-! ## Helper lemmas -/

/-- A conditionally rendered section is present exactly when its gating
condition holds. -/
theorem isSome_boolIf {α : Type} (c : Bool) (a : α) :
    (if c then some a else none).isSome = c := by
  cases c <;> simp

/-- Mapping over a conditionally rendered section maps its content. -/
theorem map_boolIf {α β : Type} (c : Bool) (a : α) (f : α → β) :
    (if c then some a else none).map f =
      if c then some (f a) else none := by
  cases c <;> simp

/-- A `getD` lookup with default `false` is true exactly when the optional
lookup yields `some true`. -/
theorem getD_false_eq_true_iff (l : List Bool) (i : Nat) :
    (l[i]?.getD false = true) ↔ l[i]? = some true := by
  cases hg : l[i]? with
  | none => simp [hg]
  | some b => cases b <;> simp [hg]

/-- The optional-chain lookup `postprocessingEditable?.[i]` is truthy exactly
when the mapping is present and holds `true` at index `i`. -/
theorem postprocessingEditableAt_eq_true (pe : Option (List Bool)) (i : Nat) :
    postprocessingEditableAt pe i = true ↔
      ∃ l, pe = some l ∧ l[i]? = some true := by
  cases pe with
  | none => simp [postprocessingEditableAt]
  | some l => simp [postprocessingEditableAt, getD_false_eq_true_iff]

/-- Every split name is a member of the fixed priority ordering. -/
theorem mem_DATASET_SPLIT_NAMES (d : DatasetSplitName) :
    d ∈ DATASET_SPLIT_NAMES := by
  cases d <;> decide

/-- The class-overlap link factors through the generic split-link shape. -/
theorem classOverlap_link_eq (jobId searchString : String) :
    "/" ++ jobId ++ "/dataset_splits/train/class_overlap" ++ searchString =
      "/" ++ jobId ++ "/dataset_splits/" ++ DatasetSplitName.train.path ++
        "/class_overlap" ++ searchString := by
  have h : ("/dataset_splits/" ++ "train") ++ "/class_overlap" =
      "/dataset_splits/train/class_overlap" := rfl
  rw [DatasetSplitName.path, ← h]
  simp only [String.append_assoc]

/-! ## Claims -/

/-- C1: for every `AvailableDatasetSplits` with at least one true entry,
`firstAvailableDatasetSplit` occurs in `DATASET_SPLIT_NAMES` at a position
whose entry is true and all of whose predecessors have false entries (it is
the first available split in the fixed priority ordering), and repeated
evaluation on identical input yields the same split name. -/
theorem claim_C1 (s : AvailableDatasetSplits)
    (h : ∃ n ∈ DATASET_SPLIT_NAMES, s.at n = true) :
    (∃ i : Nat,
      DATASET_SPLIT_NAMES[i]? = some (firstAvailableDatasetSplit s) ∧
      s.at (firstAvailableDatasetSplit s) = true ∧
      ∀ j : Nat, j < i → ∀ m, DATASET_SPLIT_NAMES[j]? = some m →
        s.at m = false) ∧
    firstAvailableDatasetSplit s = firstAvailableDatasetSplit s := by
  refine ⟨?_, rfl⟩
  obtain ⟨t, e⟩ := s
  cases t with
  | true =>
    exact ⟨0, by cases e <;> decide, by cases e <;> decide,
      fun j hj m hm => absurd hj (Nat.not_lt_zero j)⟩
  | false =>
    cases e with
    | true =>
      refine ⟨1, by decide, by decide, ?_⟩
      intro j hj m hm
      have hj0 : j = 0 := by omega
      subst hj0
      simp only [DATASET_SPLIT_NAMES, List.getElem?_cons_zero,
        Option.some.injEq] at hm
      subst hm
      decide
    | false =>
      obtain ⟨n, hmem, hn⟩ := h
      cases n <;> simp [AvailableDatasetSplits.at] at hn

/-- Witness for C1: with only the eval split available, the computed first
available split is the second entry of the priority order, preceded by an
unavailable one. -/
theorem claim_C1_witness :
    (∃ n ∈ DATASET_SPLIT_NAMES, evalOnlySplits.at n = true) ∧
    ((∃ i : Nat,
        DATASET_SPLIT_NAMES[i]? =
          some (firstAvailableDatasetSplit evalOnlySplits) ∧
        evalOnlySplits.at (firstAvailableDatasetSplit evalOnlySplits) = true ∧
        ∀ j : Nat, j < i → ∀ m, DATASET_SPLIT_NAMES[j]? = some m →
          evalOnlySplits.at m = false) ∧
      firstAvailableDatasetSplit evalOnlySplits =
        firstAvailableDatasetSplit evalOnlySplits) :=
  ⟨⟨DatasetSplitName.eval, by decide, by decide⟩,
    claim_C1 evalOnlySplits ⟨DatasetSplitName.eval, by decide, by decide⟩⟩

/-- C2 counterexample: with the dataset-info fetch settled and an error
whose message is present but empty, the code renders the fixed fallback
"unknown error" string, not the present (empty) message, so the claim's
"message if present" reading fails at this input. -/
theorem claim_C2_counterexample :
    exampleEmptyMessageInput.datasetInfoQuery.error.bind FetchError.message =
      some "" ∧
    dashboard exampleEmptyMessageInput ≠ RenderOutput.placeholder "" ∧
    dashboard exampleEmptyMessageInput =
      RenderOutput.placeholder UNKNOWN_ERROR := by
  refine ⟨rfl, ?_, rfl⟩
  intro h
  rw [show dashboard exampleEmptyMessageInput =
      RenderOutput.placeholder UNKNOWN_ERROR from rfl] at h
  injection h with h2
  exact absurd h2 (by decide)

/-- C2 (amended): the render decision dispatches in priority order: while
the dataset-info fetch is in flight the output is the loading indicator,
regardless of all other input state; otherwise, if the fetch errored or
returned no data, the output is the placeholder, whose message is the
fetched error's message if that message is present and non-empty and the
fixed fallback "unknown error" string otherwise; otherwise the sections are
evaluated. -/
theorem claim_C2_amended (input : DashboardInput) :
    (input.datasetInfoQuery.isFetching = true →
      dashboard input = RenderOutput.loading) ∧
    (input.datasetInfoQuery.isFetching = false →
      (input.datasetInfoQuery.error.isSome = true ∨
        input.datasetInfoQuery.data = none) →
      ∀ m, input.datasetInfoQuery.error.bind FetchError.message = some m →
        m ≠ "" → dashboard input = RenderOutput.placeholder m) ∧
    (input.datasetInfoQuery.isFetching = false →
      (input.datasetInfoQuery.error.isSome = true ∨
        input.datasetInfoQuery.data = none) →
      (input.datasetInfoQuery.error.bind FetchError.message = none ∨
        input.datasetInfoQuery.error.bind FetchError.message = some "") →
      dashboard input = RenderOutput.placeholder UNKNOWN_ERROR) ∧
    (input.datasetInfoQuery.isFetching = false →
      input.datasetInfoQuery.error = none →
      ∀ di, input.datasetInfoQuery.data = some di →
        dashboard input = RenderOutput.page (renderPage input.jobId
          input.pipeline input.searchString input.config di)) := by
  refine ⟨?_, ?_, ?_, ?_⟩
  · intro hf
    simp [dashboard, hf]
  · intro hf hor m hm hne
    cases herr : input.datasetInfoQuery.error with
    | none => rw [herr] at hm; simp at hm
    | some e =>
      rw [herr] at hm
      simp only [Option.some_bind] at hm
      simp [dashboard, hf, herr, placeholderMessage, jsStringOr, hm, hne]
  · intro hf hor hm
    cases herr : input.datasetInfoQuery.error with
    | none =>
      rcases hor with hor | hor
      · rw [herr] at hor; simp at hor
      · simp [dashboard, hf, herr, hor, placeholderMessage, jsStringOr]
    | some e =>
      rw [herr] at hm
      simp only [Option.some_bind] at hm
      rcases hm with hm | hm <;>
        simp [dashboard, hf, herr, placeholderMessage, jsStringOr, hm]
  · intro hf he di hd
    simp [dashboard, hf, he, hd]

/-- Witness for C2 (amended): each branch of the dispatch instantiated at a
concrete input. -/
theorem claim_C2_amended_witness :
    dashboard exampleLoadingInput = RenderOutput.loading ∧
    dashboard exampleFailedInput = RenderOutput.placeholder "boom" ∧
    dashboard exampleFailedNoMessageInput =
      RenderOutput.placeholder UNKNOWN_ERROR ∧
    dashboard exampleSuccessInput =
      RenderOutput.page (renderPage exampleSuccessInput.jobId
        exampleSuccessInput.pipeline exampleSuccessInput.searchString
        exampleSuccessInput.config exampleDatasetInfo) :=
  ⟨(claim_C2_amended exampleLoadingInput).1 rfl,
   (claim_C2_amended exampleFailedInput).2.1 rfl (Or.inl rfl) "boom" rfl
     (by decide),
   (claim_C2_amended exampleFailedNoMessageInput).2.2.1 rfl (Or.inl rfl)
     (Or.inl rfl),
   (claim_C2_amended exampleSuccessInput).2.2.2 rfl rfl exampleDatasetInfo rfl⟩

/-- C3: in the section-rendering state, the "Post-processing Analysis"
section is rendered if and only if a pipeline is selected, the eval split is
available, and the `postprocessingEditable` mapping is present with value
`true` at that pipeline's index; an absent mapping or an index outside the
mapping counts as not editable, so the section is not rendered then. -/
theorem claim_C3 (jobId : String) (pipeline : Option Pipeline)
    (searchString : String) (config : Option AzimuthConfig)
    (di : DatasetInfo) :
    (renderPage jobId pipeline searchString config di).postprocessing.isSome =
        true ↔
      ∃ p, pipeline = some p ∧ di.availableDatasetSplits.eval = true ∧
        ∃ l, di.postprocessingEditable = some l ∧
          l[p.pipelineIndex]? = some true := by
  cases pipeline with
  | none => simp [renderPage]
  | some p =>
    simp [renderPage, isPipelineSelected, isSome_boolIf,
      postprocessingEditableAt_eq_true]

/-- C4: in the section-rendering state, the "Class Overlap" section is
rendered if and only if the train split is available and similarity is
available (for all four combinations of the two booleans, since both range
over all of `Bool` here), and when rendered its navigation target names the
train split explicitly rather than the page's default split. -/
theorem claim_C4 (jobId : String) (pipeline : Option Pipeline)
    (searchString : String) (config : Option AzimuthConfig)
    (di : DatasetInfo) :
    ((renderPage jobId pipeline searchString config di).classOverlap.isSome =
      (di.availableDatasetSplits.train && di.similarityAvailable)) ∧
    ((renderPage jobId pipeline searchString config di).classOverlap.map
        SectionCard.«to» =
      if di.availableDatasetSplits.train && di.similarityAvailable then
        some ("/" ++ jobId ++ "/dataset_splits/train/class_overlap" ++
          searchString)
      else none) := by
  refine ⟨?_, ?_⟩ <;>
    cases ht : di.availableDatasetSplits.train <;>
      cases hs : di.similarityAvailable <;>
        simp [renderPage, ht, hs]

/-- C5: in the section-rendering state, the "Pipeline Metrics by Data
Subpopulation" and "Smart Tag Analysis" sections are each rendered if and
only if a pipeline is selected — the right-hand sides mention no field of
the dataset info, so the decision is independent of split availability and
of every other `DatasetInfo` boolean — and each section's per-section
current-split state is initialized to `firstAvailableDatasetSplit`. -/
theorem claim_C5 (jobId : String) (pipeline : Option Pipeline)
    (searchString : String) (config : Option AzimuthConfig)
    (di : DatasetInfo) :
    ((renderPage jobId pipeline searchString config di).pipelineMetrics.isSome
      = isPipelineSelected pipeline) ∧
    ((renderPage jobId pipeline searchString config di).smartTags.isSome =
      isPipelineSelected pipeline) ∧
    ((renderPage jobId pipeline searchString config di).pipelineMetrics.map
        SplitStateSection.defaultDatasetSplitName =
      if isPipelineSelected pipeline then
        some (firstAvailableDatasetSplit di.availableDatasetSplits)
      else none) ∧
    ((renderPage jobId pipeline searchString config di).smartTags.map
        SplitStateSection.defaultDatasetSplitName =
      if isPipelineSelected pipeline then
        some (firstAvailableDatasetSplit di.availableDatasetSplits)
      else none) := by
  refine ⟨?_, ?_, ?_, ?_⟩ <;>
    simp [renderPage, isSome_boolIf, map_boolIf]

/-- C6: in the section-rendering state, the "Behavioral Testing" section is
rendered if and only if a pipeline is selected and perturbation testing is
available, and its navigation target is `/{jobId}/behavioral_testing_summary`
followed by the search string — a path with no dataset-split segment. -/
theorem claim_C6 (jobId : String) (pipeline : Option Pipeline)
    (searchString : String) (config : Option AzimuthConfig)
    (di : DatasetInfo) :
    ((renderPage jobId pipeline searchString config di).behavioralTesting.isSome
      = (isPipelineSelected pipeline && di.perturbationTestingAvailable)) ∧
    ((renderPage jobId pipeline searchString config di).behavioralTesting.map
        SectionCard.«to» =
      if isPipelineSelected pipeline && di.perturbationTestingAvailable then
        some ("/" ++ jobId ++ "/behavioral_testing_summary" ++ searchString)
      else none) := by
  refine ⟨?_, ?_⟩ <;>
    cases pipeline <;>
      cases hp : di.perturbationTestingAvailable <;>
        simp [renderPage, isPipelineSelected, hp]

/-- C7: in the section-rendering state, for every pipeline selection, job
configuration and dataset info, the header call-to-action link targets the
exploration view of `firstAvailableDatasetSplit`, and the "Dataset Warnings"
card is rendered with target `/{jobId}/dataset_warnings{searchString}` (no
split in the path) — unconditionally, since all inputs beyond the job id and
search string are universally quantified and absent from the right-hand
sides. -/
theorem claim_C7 (jobId : String) (pipeline : Option Pipeline)
    (searchString : String) (config : Option AzimuthConfig)
    (di : DatasetInfo) :
    ((renderPage jobId pipeline searchString config di).explorationLink =
      "/" ++ jobId ++ "/dataset_splits/" ++
        (firstAvailableDatasetSplit di.availableDatasetSplits).path ++
        "/prediction_overview" ++ searchString) ∧
    ((renderPage jobId pipeline searchString config di).datasetWarnings =
      { title := "Dataset Warnings"
        «to» := "/" ++ jobId ++ "/dataset_warnings" ++ searchString
        linkButtonText := none }) :=
  ⟨rfl, rfl⟩

/-- The "Compare pipelines" label is present exactly when the configuration
is present with a pipelines list of length greater than one, and absent
(never an empty string) otherwise. -/
theorem comparePipelinesLabel_spec (config : Option AzimuthConfig) :
    (comparePipelinesLabel config = some "Compare pipelines" ↔
      ∃ c, config = some c ∧ ∃ ps, c.pipelines = some ps ∧ ps.length > 1) ∧
    ((∀ c, config = some c → ∀ ps, c.pipelines = some ps → ps.length ≤ 1) →
      comparePipelinesLabel config = none) := by
  cases config with
  | none => simp [comparePipelinesLabel]
  | some c =>
    cases hc : c.pipelines with
    | none => simp [comparePipelinesLabel, hc]
    | some ps =>
      by_cases hl : ps.length > 1
      · refine ⟨?_, ?_⟩
        · simp [comparePipelinesLabel, hc, hl]
        · intro h
          exact absurd (h c rfl ps hc) (by omega)
      · refine ⟨?_, ?_⟩
        · simp [comparePipelinesLabel, hc, hl]
        · intro h
          simp [comparePipelinesLabel, hc, hl]

/-- C8: whenever the "Pipeline Metrics by Data Subpopulation" section is
rendered (a pipeline is selected), its "Compare pipelines" link label is
present if and only if the job configuration is present with a pipelines
list of length strictly greater than one; when the configuration is absent,
has no pipelines list, or the list has at most one entry, the label is
absent (not an empty string). -/
theorem claim_C8 (jobId : String) (pipeline : Option Pipeline)
    (searchString : String) (config : Option AzimuthConfig)
    (di : DatasetInfo) (datasetSplitName : DatasetSplitName)
    (hp : isPipelineSelected pipeline = true) :
    ((renderPage jobId pipeline searchString config di).pipelineMetrics.map
        (fun sec => (sec.render datasetSplitName).linkButtonText) =
          some (some "Compare pipelines") ↔
      ∃ c, config = some c ∧ ∃ ps, c.pipelines = some ps ∧ ps.length > 1) ∧
    ((∀ c, config = some c → ∀ ps, c.pipelines = some ps → ps.length ≤ 1) →
      (renderPage jobId pipeline searchString config di).pipelineMetrics.map
        (fun sec => (sec.render datasetSplitName).linkButtonText) =
          some none) := by
  have hmap : (renderPage jobId pipeline searchString config di).pipelineMetrics.map
      (fun sec => (sec.render datasetSplitName).linkButtonText) =
      some (comparePipelinesLabel config) := by
    simp [renderPage, hp]
  rw [hmap]
  constructor
  · rw [Option.some_inj]
    exact (comparePipelinesLabel_spec config).1
  · intro h
    rw [(comparePipelinesLabel_spec config).2 h]

/-- Witness for C8: with two configured pipelines and a selected pipeline,
the rendered section carries the "Compare pipelines" label. -/
theorem claim_C8_witness :
    (renderPage "job" (some { pipelineIndex := 0 }) "?q"
        (some { pipelines := some [{ name := "p0" }, { name := "p1" }] })
        exampleDatasetInfo).pipelineMetrics.map
      (fun sec => (sec.render DatasetSplitName.train).linkButtonText) =
      some (some "Compare pipelines") :=
  (claim_C8 "job" (some { pipelineIndex := 0 }) "?q"
      (some { pipelines := some [{ name := "p0" }, { name := "p1" }] })
      exampleDatasetInfo DatasetSplitName.train rfl).1.mpr
    ⟨{ pipelines := some [{ name := "p0" }, { name := "p1" }] }, rfl,
      [{ name := "p0" }, { name := "p1" }], rfl, by decide⟩

/-- C9: every navigation link generated in the section-rendering state —
the header call-to-action, the Dataset Warnings card, and every conditional
section at every per-section split state — has the shape
`/{jobId}{sectionPath}{searchString}` or
`/{jobId}/dataset_splits/{split}{sectionPath}{searchString}`: the job id is
the first segment and the opaque search string is the verbatim final
suffix. -/
theorem claim_C9 (jobId : String) (pipeline : Option Pipeline)
    (searchString : String) (config : Option AzimuthConfig)
    (di : DatasetInfo) :
    hasLinkShape jobId searchString
      (renderPage jobId pipeline searchString config di).explorationLink ∧
    hasLinkShape jobId searchString
      (renderPage jobId pipeline searchString config di).datasetWarnings.«to» ∧
    (∀ sec, (renderPage jobId pipeline searchString config di).classOverlap =
      some sec → hasLinkShape jobId searchString sec.«to») ∧
    (∀ sec datasetSplitName,
      (renderPage jobId pipeline searchString config di).pipelineMetrics =
        some sec →
      hasLinkShape jobId searchString ((sec.render datasetSplitName).«to»)) ∧
    (∀ sec datasetSplitName,
      (renderPage jobId pipeline searchString config di).smartTags =
        some sec →
      hasLinkShape jobId searchString ((sec.render datasetSplitName).«to»)) ∧
    (∀ sec,
      (renderPage jobId pipeline searchString config di).behavioralTesting =
        some sec → hasLinkShape jobId searchString sec.«to») ∧
    (∀ sec,
      (renderPage jobId pipeline searchString config di).postprocessing =
        some sec → hasLinkShape jobId searchString sec.«to») := by
  refine ⟨?_, ?_, ?_, ?_, ?_, ?_, ?_⟩
  · exact Or.inr ⟨"/prediction_overview", by decide,
      firstAvailableDatasetSplit di.availableDatasetSplits,
      mem_DATASET_SPLIT_NAMES _, rfl⟩
  · exact Or.inl ⟨"/dataset_warnings", by decide, rfl⟩
  · intro sec h
    cases ht : di.availableDatasetSplits.train <;>
      cases hs : di.similarityAvailable <;>
        simp [renderPage, ht, hs] at h
    subst h
    exact Or.inr ⟨"/class_overlap", by decide, DatasetSplitName.train,
      mem_DATASET_SPLIT_NAMES _, classOverlap_link_eq jobId searchString⟩
  · intro sec datasetSplitName h
    cases pipeline <;> simp [renderPage, isPipelineSelected] at h
    subst h
    exact Or.inr ⟨"/pipeline_metrics", by decide, datasetSplitName,
      mem_DATASET_SPLIT_NAMES _, rfl⟩
  · intro sec datasetSplitName h
    cases pipeline <;> simp [renderPage, isPipelineSelected] at h
    subst h
    exact Or.inr ⟨"/smart_tags", by decide, datasetSplitName,
      mem_DATASET_SPLIT_NAMES _, rfl⟩
  · intro sec h
    cases pipeline <;>
      cases hp : di.perturbationTestingAvailable <;>
        simp [renderPage, isPipelineSelected, hp] at h
    subst h
    exact Or.inl ⟨"/behavioral_testing_summary", by decide, rfl⟩
  · intro sec h
    cases pipeline with
    | none => simp [renderPage] at h
    | some p =>
      cases he : di.availableDatasetSplits.eval <;>
        cases hpe : postprocessingEditableAt di.postprocessingEditable
            p.pipelineIndex <;>
          simp [renderPage, isPipelineSelected, he, hpe] at h
      subst h
      exact Or.inl ⟨"/thresholds", by decide, rfl⟩

/-- Witness for C9: each conditional section instantiated at a concrete
input on which it is rendered. -/
theorem claim_C9_witness :
    hasLinkShape "job" "?q" "/job/dataset_splits/train/class_overlap?q" ∧
    hasLinkShape "job" "?q" "/job/dataset_splits/eval/pipeline_metrics?q" ∧
    hasLinkShape "job" "?q" "/job/dataset_splits/eval/smart_tags?q" ∧
    hasLinkShape "job" "?q" "/job/behavioral_testing_summary?q" ∧
    hasLinkShape "job" "?q" "/job/thresholds?q" :=
  ⟨(claim_C9 "job" (some { pipelineIndex := 0 }) "?q" none
      exampleDatasetInfo).2.2.1
      ((renderPage "job" (some { pipelineIndex := 0 }) "?q" none
        exampleDatasetInfo).classOverlap.get rfl) rfl,
   (claim_C9 "job" (some { pipelineIndex := 0 }) "?q" none
      exampleDatasetInfo).2.2.2.1
      ((renderPage "job" (some { pipelineIndex := 0 }) "?q" none
        exampleDatasetInfo).pipelineMetrics.get rfl) DatasetSplitName.eval
      rfl,
   (claim_C9 "job" (some { pipelineIndex := 0 }) "?q" none
      exampleDatasetInfo).2.2.2.2.1
      ((renderPage "job" (some { pipelineIndex := 0 }) "?q" none
        exampleDatasetInfo).smartTags.get rfl) DatasetSplitName.eval
      rfl,
   (claim_C9 "job" (some { pipelineIndex := 0 }) "?q" none
      exampleDatasetInfo).2.2.2.2.2.1
      ((renderPage "job" (some { pipelineIndex := 0 }) "?q" none
        exampleDatasetInfo).behavioralTesting.get rfl) rfl,
   (claim_C9 "job" (some { pipelineIndex := 0 }) "?q" none
      exampleDatasetInfo).2.2.2.2.2.2
      ((renderPage "job" (some { pipelineIndex := 0 }) "?q" none
        exampleDatasetInfo).postprocessing.get rfl) rfl⟩

/-- C10: in the failed-or-empty branch, a fetch error whose message is
present but empty also produces the fixed fallback "unknown error" string;
the displayed text is the error's message exactly when that message is a
non-empty string. -/
theorem claim_C10 (input : DashboardInput)
    (hf : input.datasetInfoQuery.isFetching = false)
    (e : FetchError) (he : input.datasetInfoQuery.error = some e) :
    (e.message = some "" →
      dashboard input = RenderOutput.placeholder UNKNOWN_ERROR) ∧
    (∀ m, e.message = some m → m ≠ "" →
      dashboard input = RenderOutput.placeholder m) := by
  constructor
  · intro hm
    simp [dashboard, hf, he, placeholderMessage, jsStringOr, hm]
  · intro m hm hne
    simp [dashboard, hf, he, placeholderMessage, jsStringOr, hm, hne]

/-- Witness for C10: an empty present message falls back to "unknown error";
a non-empty message is displayed as is. -/
theorem claim_C10_witness :
    dashboard exampleEmptyMessageInput =
      RenderOutput.placeholder UNKNOWN_ERROR ∧
    dashboard exampleOtherFailedInput = RenderOutput.placeholder "oops" :=
  ⟨(claim_C10 exampleEmptyMessageInput rfl { message := some "" } rfl).1 rfl,
   (claim_C10 exampleOtherFailedInput rfl { message := some "oops" } rfl).2
     "oops" rfl (by decide)⟩

end Azimuth
